import Mathlib

/-!
Shallow embedding of `src/server/scripts/veo_ad_creation/generate_ad.py`
(function `create_gamebuddies_ad`), together with theorems settling the
specification claims about it.

The script is sequential request/poll/save glue.  We model its interaction
with the outside world (filesystem, remote video-generation API) by an
environment `Env` of oracles, and its observable behaviour as a list of
`Event`s (console logs, API calls, sleeps, file reads and writes), produced
in program order.  The unbounded polling loop is given a fuel parameter;
running out of fuel models divergence and is reported by the `Bool`
component of the run result (`false` = the process never returned).

Python specifics abstracted (noted inline where they occur):
* file bytes are `List Nat`;
* Python exceptions are `Except String`; an oracle returning `.error e`
  models the corresponding call raising an exception with message `e`;
* `repr` of API objects in debug prints is abstracted as the opaque video
  handle string;
* `os.path.abspath(__file__)` is unknowable statically, so the script
  directory is a fixed constant; the `../..` arithmetic of
  `os.path.join`/`abspath` is carried out faithfully on path components;
* `client.operations.get(operation)` is modelled as a time-indexed oracle
  `refetch : Nat → Operation` giving the remote state seen by the n-th
  re-fetch.
-/

/-- Observable events of a run, in program order. -/
inductive Event where
  | log (msg : String)
  | sleep (units : Nat)
  | apiSubmit (model : String) (prompt : String)
      (reference_images : List (List Nat × String × String))
  | apiPoll
  | apiDownload (handle : String)
  | fsRead (path : String)
  | fsWrite (path : String) (bytes : List Nat)
  deriving DecidableEq

/-- `types.Image(image_bytes=..., mime_type=...)` (lines 50-53). -/
structure GenaiImage where
  image_bytes : List Nat
  mime_type : String
  deriving DecidableEq

/-- `types.VideoGenerationReferenceImage(image=..., reference_type=...)`
(lines 55-58). -/
structure VideoGenerationReferenceImage where
  image : GenaiImage
  reference_type : String
  deriving DecidableEq

/-- A generated video in the operation result; `video.video` (line 111) is an
opaque remote handle, modelled as a string. -/
structure GeneratedVideo where
  video : String
  deriving DecidableEq

/-- `operation.result`: carries the list `generated_videos` (line 94).  A
`None` python list is identified with the empty list (both are falsy at the
line-94 truthiness test). -/
structure OperationResult where
  generated_videos : List GeneratedVideo
  deriving DecidableEq

/-- Remote job handle: completion flag, eventual result, eventual error
(lines 87, 94, 127). -/
structure Operation where
  done : Bool
  result : Option OperationResult
  error : Option String
  deriving DecidableEq

/-- What `client.files.download` (line 111) evaluates to when it does not
raise: raw bytes, or some other value of which only the type name is
observed (line 120). -/
inductive DownloadValue where
  | bytes (b : List Nat)
  | other (typeName : String)
  deriving DecidableEq

/-- Oracles for the outside world. -/
structure Env where
  pathExists : String → Bool
  readFile : String → Except String (List Nat)
  submit : String → String → List VideoGenerationReferenceImage →
      Except String Operation
  refetch : Nat → Operation
  download : String → Except String DownloadValue

/- ## Path arithmetic (lines 14-24, 96) -/

/-- Resolve `.`/`..`/empty components, as `os.path.abspath` does on an
already-absolute base. -/
def normParts (ps : List String) : List String :=
  ps.foldl
    (fun acc p =>
      if p = ".." then acc.dropLast
      else if p = "." || p = "" then acc
      else acc ++ [p]) []

/-- `os.path.abspath(os.path.join(base, rel))` for an absolute `base`,
operating on the slash-separated components of the two paths (the literal
path strings of the script appear here pre-split on `/`, which keeps the
resulting strings kernel-computable). -/
def joinAbs (base rel : List String) : String :=
  "/" ++ String.intercalate "/" (normParts (base ++ rel))

/-- Components of `os.path.dirname(__file__)`; the actual checkout location
is irrelevant to every claim, so it is fixed. -/
def script_dir_parts : List String :=
  ["", "repo", "server", "scripts", "veo_ad_creation"]

/-- Line 14: `abspath(join(dirname(__file__), "../../public/avatars"))`. -/
def avatars_dir : String :=
  joinAbs script_dir_parts ["..", "..", "public", "avatars"]

/-- Line 15 (`os.path.join` with a relative, dot-free component appends). -/
def premium_dir : String := avatars_dir ++ "/premium"

/-- Line 16. -/
def free_dir : String := avatars_dir ++ "/free"

/-- Lines 20-24: the hardcoded candidate asset paths. -/
def avatar_files : List String :=
  [premium_dir ++ "/archer.png",
   premium_dir ++ "/knight.png",
   premium_dir ++ "/mage.png"]

/-- Line 96: the fixed output path. -/
def output_path : String :=
  joinAbs script_dir_parts ["..", "..", "public", "gamebuddies_veo_ad.mp4"]

/-- `os.path.basename` (line 44). -/
def basename (p : String) : String := (p.splitOn "/").getLastD ""

/- ## Asset Locator (lines 27-32) -/

/-- The `for p in avatar_files` existence-check loop: returns
`valid_avatars` and the warning events, in input order. -/
def verifyFiles (ex : String → Bool) : List String → List String × List Event
  | [] => ([], [])
  | p :: ps =>
    let rest := verifyFiles ex ps
    if ex p then (p :: rest.1, rest.2)
    else (rest.1, Event.log ("⚠️ Warning: Avatar not found at " ++ p) :: rest.2)

/- ## Image Loader (lines 41-60) -/

/-- Lines 50-58: wrap one file's bytes. -/
def mkReferenceImage (bytes : List Nat) : VideoGenerationReferenceImage :=
  { image := { image_bytes := bytes, mime_type := "image/png" },
    reference_type := "asset" }

/-- The `for path in valid_avatars` load loop: returns `reference_images`
and the events, in input order.  A read failure is caught, logged, and the
loop continues (lines 59-60). -/
def loadImages (rd : String → Except String (List Nat)) :
    List String → List VideoGenerationReferenceImage × List Event
  | [] => ([], [])
  | p :: ps =>
    let rest := loadImages rd ps
    match rd p with
    | .ok bytes =>
        (mkReferenceImage bytes :: rest.1,
         Event.log ("   - Loading " ++ basename p) :: Event.fsRead p :: rest.2)
    | .error e =>
        (rest.1,
         Event.log ("   - Loading " ++ basename p)
           :: Event.log ("   ❌ Failed to load image: " ++ e) :: rest.2)

/- ## Prompt (lines 64-72) -/

/-- The fixed prompt string. -/
def adPrompt : String :=
  "A cinematic trailer for a multiplayer game called GameBuddies. " ++
  "Show the provided mascot characters (Archer, Knight, Mage, and Base) " ++
  "standing together in a vibrant, pixel-art inspired fantasy lobby. " ++
  "The camera pans slowly across them as they perform idle animations like " ++
  "waving, checking gear, or casting small magical sparks. " ++
  "The background is a cheerful, bright game world with floating islands. " ++
  "The video feels energetic and inviting, highlighting the variety of customizable characters."

/- ## Job Poller (lines 87-91) -/

/-- Events of one loop iteration: `time.sleep(10)`, the re-fetch, the `"."`
progress print (lines 88-90). -/
def pollIter : List Event := [Event.sleep 10, Event.apiPoll, Event.log "."]

/-- Events of `n` loop iterations. -/
def pollEvents (n : Nat) : List Event := (List.replicate n pollIter).flatten

/-- The `while not operation.done` loop.  `i` counts re-fetches already
made; `fuel` bounds the iterations we unfold: `(none, _)` means the fuel ran
out with the flag still false, i.e. the loop had not terminated yet. -/
def pollLoop (refetch : Nat → Operation) :
    Operation → Nat → Nat → Option Operation × List Event
  | op, _, 0 => if op.done then (some op, []) else (none, [])
  | op, i, fuel + 1 =>
    if op.done then (some op, [])
    else
      let next := pollLoop refetch (refetch i) (i + 1) fuel
      (next.1, Event.sleep 10 :: Event.apiPoll :: Event.log "." :: next.2)

/- ## Result Persister (lines 94-128) -/

/-- Debug prints, lines 102-104 and 110; Python `repr`/`dir` output is
abstracted as the opaque handle string. -/
def debugEvents (video : GeneratedVideo) : List Event :=
  [Event.log ("   Video object: " ++ video.video),
   Event.log ("   Video.video object: " ++ video.video),
   Event.log ("   Video.video attributes: " ++ video.video),
   Event.log "   Attempting client.files.download..."]

/-- Lines 125-128: the no-video branch, reporting any operation error. -/
def noVideoEvents (op : Operation) : List Event :=
  Event.log "❌ No video returned in result." ::
    (match op.error with
     | some e => [Event.log ("   Error: " ++ e)]
     | none => [])

/-- Lines 94-128: inspect the completed operation, download the first video,
save bytes, or log diagnostics.  The inner `try`/`except save_err`
(lines 100-124) shows up as the `.error` arm of the download. -/
def persistResult (download : String → Except String DownloadValue)
    (op : Operation) : List Event :=
  match op.result with
  | some res =>
    match res.generated_videos with
    | video :: _ =>
      Event.log ("💾 Saving video to: " ++ output_path) ::
        (debugEvents video ++
          (Event.apiDownload video.video ::
            (match download video.video with
             | .ok (.bytes b) =>
                 [Event.log "   Download returned bytes. Saving...",
                  Event.fsWrite output_path b,
                  Event.log "✅ Video saved successfully!"]
             | .ok (.other t) =>
                 [Event.log ("   Download returned " ++ t ++ ". Trying to interpret...")]
             | .error e =>
                 [Event.log ("❌ Failed to save video: " ++ e)])))
    | [] => noVideoEvents op
  | none => noVideoEvents op

/- ## The whole run (lines 10-131) -/

/-- `create_gamebuddies_ad()`: the full run.  Returns the event trace and
whether the function returned (`false` = the polling loop was still running
when `fuel` re-fetches had been made). -/
def create_gamebuddies_ad (env : Env) (fuel : Nat) : List Event × Bool :=
  let startEv := Event.log "🎬 Starting GameBuddies Ad Creation with Veo..."
  let vf := verifyFiles env.pathExists avatar_files
  let valid_avatars := vf.1
  if valid_avatars.isEmpty then
    (startEv :: vf.2 ++ [Event.log "❌ No avatars found to generate video."], true)
  else
    let li := loadImages env.readFile valid_avatars
    let reference_images := li.1
    let pre := startEv :: vf.2 ++
      [Event.log ("✅ Found " ++ toString valid_avatars.length ++ " avatars for reference.")] ++
      li.2 ++
      [Event.log "\n🚀 Sending request to Veo 3.1...",
       Event.apiSubmit "veo-3.1-generate-preview" adPrompt
         (reference_images.map fun r =>
           (r.image.image_bytes, r.image.mime_type, r.reference_type))]
    match env.submit "veo-3.1-generate-preview" adPrompt reference_images with
    | .error e => (pre ++ [Event.log ("❌ API Request failed: " ++ e)], true)
    | .ok op =>
      let waitEv := Event.log "⏳ Waiting for video generation..."
      let pl := pollLoop env.refetch op 0 fuel
      match pl.1 with
      | none => (pre ++ waitEv :: pl.2, false)
      | some opF =>
          (pre ++ waitEv :: pl.2 ++
            Event.log "\n✨ Generation complete!" :: persistResult env.download opF,
           true)

/- ## Derived notions used by the claims -/

/-- Is this event a remote API interaction (submission, poll, download)? -/
def isApiCall : Event → Bool
  | Event.apiSubmit _ _ _ => true
  | Event.apiPoll => true
  | Event.apiDownload _ => true
  | _ => false

/-- Is this event a filesystem write? -/
def isWrite : Event → Bool
  | Event.fsWrite _ _ => true
  | _ => false

/-- Is this event a submission? -/
def isSubmit : Event → Bool
  | Event.apiSubmit _ _ _ => true
  | _ => false

/-- Replay one event against a filesystem (path ↦ contents); a write
replaces whatever was at the path. -/
def applyEvent (fs : String → Option (List Nat)) : Event → String → Option (List Nat)
  | Event.fsWrite p b => fun q => if q = p then some b else fs q
  | _ => fs

/-- Replay a trace against a filesystem. -/
def applyEvents (fs : String → Option (List Nat)) (evs : List Event) :
    String → Option (List Nat) :=
  evs.foldl applyEvent fs

/- ## Lemmas about the Asset Locator -/

theorem verifyFiles_fst (ex : String → Bool) (fs : List String) :
    (verifyFiles ex fs).1 = fs.filter (fun p => ex p) := by
  induction fs with
  | nil => rfl
  | cons p ps ih =>
    cases h : ex p <;> simp [verifyFiles, h, ih, List.filter_cons]

theorem verifyFiles_snd (ex : String → Bool) (fs : List String) :
    (verifyFiles ex fs).2 =
      (fs.filter (fun p => !ex p)).map
        (fun p => Event.log ("⚠️ Warning: Avatar not found at " ++ p)) := by
  induction fs with
  | nil => rfl
  | cons p ps ih =>
    cases h : ex p <;> simp [verifyFiles, h, ih, List.filter_cons]

theorem verifyFiles_events_log (ex : String → Bool) (fs : List String) :
    ∀ e ∈ (verifyFiles ex fs).2, ∃ m, e = Event.log m := by
  intro e he
  rw [verifyFiles_snd] at he
  obtain ⟨p, _, rfl⟩ := List.mem_map.mp he
  exact ⟨_, rfl⟩

/- ## Lemmas about the Image Loader -/

theorem loadImages_fst (rd : String → Except String (List Nat)) (ps : List String) :
    (loadImages rd ps).1 = ps.filterMap (fun p =>
      match rd p with
      | .ok b => some (mkReferenceImage b)
      | .error _ => none) := by
  induction ps with
  | nil => rfl
  | cons p ps ih =>
    cases h : rd p <;> simp [loadImages, h, ih, List.filterMap_cons]

theorem loadImages_err_log (rd : String → Except String (List Nat))
    (ps : List String) (p : String) (e : String)
    (hp : p ∈ ps) (he : rd p = .error e) :
    Event.log ("   ❌ Failed to load image: " ++ e) ∈ (loadImages rd ps).2 := by
  induction ps with
  | nil => cases hp
  | cons q qs ih =>
    rcases List.mem_cons.mp hp with rfl | hq
    · simp [loadImages, he]
    · cases h : rd q <;> simp [loadImages, h, ih hq]

theorem loadImages_events_shape (rd : String → Except String (List Nat))
    (ps : List String) :
    ∀ e ∈ (loadImages rd ps).2,
      (∃ m, e = Event.log m) ∨ (∃ p, e = Event.fsRead p) := by
  induction ps with
  | nil => intro e he; cases he
  | cons q qs ih =>
    intro e he
    cases h : rd q <;> rw [loadImages] at he <;>
      simp only [h, List.mem_cons] at he <;>
      rcases he with rfl | rfl | he <;>
      first
        | exact Or.inl ⟨_, rfl⟩
        | exact Or.inr ⟨_, rfl⟩
        | exact ih e he

/- ## Lemmas about the polling loop -/

theorem pollEvents_zero : pollEvents 0 = [] := rfl

theorem pollEvents_succ (n : Nat) :
    pollEvents (n + 1) =
      Event.sleep 10 :: Event.apiPoll :: Event.log "." :: pollEvents n := by
  simp [pollEvents, pollIter, List.replicate_succ]

theorem pollLoop_of_done (refetch : Nat → Operation) (op : Operation)
    (i fuel : Nat) (h : op.done = true) :
    pollLoop refetch op i fuel = (some op, []) := by
  cases fuel <;> simp [pollLoop, h]

theorem pollLoop_never (refetch : Nat → Operation)
    (hall : ∀ n, (refetch n).done = false) :
    ∀ fuel op i, op.done = false → (pollLoop refetch op i fuel).1 = none := by
  intro fuel
  induction fuel with
  | zero => intro op i h; simp [pollLoop, h]
  | succ f ih =>
    intro op i h
    simp only [pollLoop, h, Bool.false_eq_true, if_false]
    exact ih _ _ (hall i)

theorem pollLoop_first_done (refetch : Nat → Operation) :
    ∀ k op i fuel, op.done = false → (refetch (i + k)).done = true →
      (∀ j, j < k → (refetch (i + j)).done = false) → k < fuel →
      pollLoop refetch op i fuel = (some (refetch (i + k)), pollEvents (k + 1)) := by
  intro k
  induction k with
  | zero =>
    intro op i fuel hop hk _ hf
    obtain ⟨f, rfl⟩ : ∃ f, fuel = f + 1 := ⟨fuel - 1, by omega⟩
    simp only [pollLoop, hop, Bool.false_eq_true, if_false]
    rw [pollLoop_of_done refetch _ _ _ (by simpa using hk)]
    simp [pollEvents_succ, pollEvents_zero]
  | succ k ih =>
    intro op i fuel hop hk hlt hf
    obtain ⟨f, rfl⟩ : ∃ f, fuel = f + 1 := ⟨fuel - 1, by omega⟩
    simp only [pollLoop, hop, Bool.false_eq_true, if_false]
    have h0 : (refetch i).done = false := by simpa using hlt 0 (by omega)
    have hk' : (refetch (i + 1 + k)).done = true := by
      have : i + 1 + k = i + (k + 1) := by omega
      rw [this]; exact hk
    have hlt' : ∀ j, j < k → (refetch (i + 1 + j)).done = false := by
      intro j hj
      have : i + 1 + j = i + (j + 1) := by omega
      rw [this]; exact hlt (j + 1) (by omega)
    rw [ih (refetch i) (i + 1) f h0 hk' hlt' (by omega)]
    have : i + 1 + k = i + (k + 1) := by omega
    rw [this, pollEvents_succ (k + 1)]

theorem pollLoop_events_shape (refetch : Nat → Operation) :
    ∀ fuel op i, ∀ e ∈ (pollLoop refetch op i fuel).2,
      e = Event.sleep 10 ∨ e = Event.apiPoll ∨ e = Event.log "." := by
  intro fuel
  induction fuel with
  | zero => intro op i e he; cases h : op.done <;> simp [pollLoop, h] at he
  | succ f ih =>
    intro op i e he
    cases h : op.done <;>
      simp only [pollLoop, h, Bool.false_eq_true, if_false, if_true,
        List.mem_cons] at he
    · rcases he with rfl | rfl | rfl | he
      · exact Or.inl rfl
      · exact Or.inr (Or.inl rfl)
      · exact Or.inr (Or.inr rfl)
      · exact ih _ _ e he
    · cases he

/- ## Lemmas about the Result Persister -/

theorem persistResult_noVideo (download : String → Except String DownloadValue)
    (op : Operation)
    (h : op.result = none ∨ ∃ res, op.result = some res ∧ res.generated_videos = []) :
    persistResult download op = noVideoEvents op := by
  rcases h with h | ⟨res, hres, hvs⟩
  · simp [persistResult, h]
  · simp [persistResult, hres, hvs]

theorem persistResult_bytes (download : String → Except String DownloadValue)
    (op : Operation) (res : OperationResult) (v : GeneratedVideo)
    (vs : List GeneratedVideo) (b : List Nat)
    (hres : op.result = some res) (hvs : res.generated_videos = v :: vs)
    (hdl : download v.video = Except.ok (DownloadValue.bytes b)) :
    persistResult download op =
      Event.log ("💾 Saving video to: " ++ output_path) ::
        (debugEvents v ++
          (Event.apiDownload v.video ::
            [Event.log "   Download returned bytes. Saving...",
             Event.fsWrite output_path b,
             Event.log "✅ Video saved successfully!"])) := by
  simp [persistResult, hres, hvs, hdl]

theorem persistResult_other (download : String → Except String DownloadValue)
    (op : Operation) (res : OperationResult) (v : GeneratedVideo)
    (vs : List GeneratedVideo) (t : String)
    (hres : op.result = some res) (hvs : res.generated_videos = v :: vs)
    (hdl : download v.video = Except.ok (DownloadValue.other t)) :
    persistResult download op =
      Event.log ("💾 Saving video to: " ++ output_path) ::
        (debugEvents v ++
          (Event.apiDownload v.video ::
            [Event.log ("   Download returned " ++ t ++ ". Trying to interpret...")])) := by
  simp [persistResult, hres, hvs, hdl]

theorem persistResult_dlerr (download : String → Except String DownloadValue)
    (op : Operation) (res : OperationResult) (v : GeneratedVideo)
    (vs : List GeneratedVideo) (e : String)
    (hres : op.result = some res) (hvs : res.generated_videos = v :: vs)
    (hdl : download v.video = Except.error e) :
    persistResult download op =
      Event.log ("💾 Saving video to: " ++ output_path) ::
        (debugEvents v ++
          (Event.apiDownload v.video ::
            [Event.log ("❌ Failed to save video: " ++ e)])) := by
  simp [persistResult, hres, hvs, hdl]

theorem noVideoEvents_shape (op : Operation) :
    ∀ e ∈ noVideoEvents op, ∃ m, e = Event.log m := by
  intro e he
  unfold noVideoEvents at he
  rcases h : op.error with _ | err <;> rw [h] at he <;>
    simp only [List.mem_cons, List.mem_singleton, List.not_mem_nil, or_false] at he
  · exact ⟨_, he⟩
  · rcases he with rfl | rfl <;> exact ⟨_, rfl⟩

theorem persistResult_events_shape (download : String → Except String DownloadValue)
    (op : Operation) :
    ∀ e ∈ persistResult download op,
      (∃ m, e = Event.log m) ∨ (∃ h, e = Event.apiDownload h) ∨
        (∃ b, e = Event.fsWrite output_path b) := by
  intro e he
  rcases hres : op.result with _ | res
  · rw [persistResult_noVideo download op (Or.inl hres)] at he
    exact Or.inl (noVideoEvents_shape op e he)
  · rcases hvs : res.generated_videos with _ | ⟨v, vs⟩
    · rw [persistResult_noVideo download op (Or.inr ⟨res, hres, hvs⟩)] at he
      exact Or.inl (noVideoEvents_shape op e he)
    · rcases hdl : download v.video with err | val
      · rw [persistResult_dlerr download op res v vs err hres hvs hdl] at he
        simp only [debugEvents, List.mem_cons, List.mem_append,
          List.mem_singleton, List.not_mem_nil, or_false] at he
        rcases he with rfl | (rfl | rfl | rfl | rfl) | rfl | rfl <;>
          first
            | exact Or.inl ⟨_, rfl⟩
            | exact Or.inr (Or.inl ⟨_, rfl⟩)
      · rcases val with b | t
        · rw [persistResult_bytes download op res v vs b hres hvs hdl] at he
          simp only [debugEvents, List.mem_cons, List.mem_append,
            List.mem_singleton, List.not_mem_nil, or_false] at he
          rcases he with rfl | (rfl | rfl | rfl | rfl) | rfl | rfl | rfl | rfl <;>
            first
              | exact Or.inl ⟨_, rfl⟩
              | exact Or.inr (Or.inl ⟨_, rfl⟩)
              | exact Or.inr (Or.inr ⟨_, rfl⟩)
        · rw [persistResult_other download op res v vs t hres hvs hdl] at he
          simp only [debugEvents, List.mem_cons, List.mem_append,
            List.mem_singleton, List.not_mem_nil, or_false] at he
          rcases he with rfl | (rfl | rfl | rfl | rfl) | rfl | rfl <;>
            first
              | exact Or.inl ⟨_, rfl⟩
              | exact Or.inr (Or.inl ⟨_, rfl⟩)

/- ## Event counting helpers -/

theorem countP_verifyFiles_isSubmit (ex : String → Bool) (fs : List String) :
    ((verifyFiles ex fs).2.countP isSubmit) = 0 := by
  rw [List.countP_eq_zero]
  intro e he
  obtain ⟨m, rfl⟩ := verifyFiles_events_log ex fs e he
  simp [isSubmit]

theorem countP_verifyFiles_isApiCall (ex : String → Bool) (fs : List String) :
    ((verifyFiles ex fs).2.countP isApiCall) = 0 := by
  rw [List.countP_eq_zero]
  intro e he
  obtain ⟨m, rfl⟩ := verifyFiles_events_log ex fs e he
  simp [isApiCall]

theorem countP_loadImages_isSubmit (rd : String → Except String (List Nat))
    (ps : List String) : ((loadImages rd ps).2.countP isSubmit) = 0 := by
  rw [List.countP_eq_zero]
  intro e he
  rcases loadImages_events_shape rd ps e he with ⟨m, rfl⟩ | ⟨p, rfl⟩ <;> simp [isSubmit]

theorem countP_loadImages_isApiCall (rd : String → Except String (List Nat))
    (ps : List String) : ((loadImages rd ps).2.countP isApiCall) = 0 := by
  rw [List.countP_eq_zero]
  intro e he
  rcases loadImages_events_shape rd ps e he with ⟨m, rfl⟩ | ⟨p, rfl⟩ <;> simp [isApiCall]

theorem countP_pollLoop_isSubmit (refetch : Nat → Operation)
    (op : Operation) (i fuel : Nat) :
    ((pollLoop refetch op i fuel).2.countP isSubmit) = 0 := by
  rw [List.countP_eq_zero]
  intro e he
  rcases pollLoop_events_shape refetch fuel op i e he with rfl | rfl | rfl <;>
    simp [isSubmit]

theorem countP_persistResult_isSubmit (download : String → Except String DownloadValue)
    (op : Operation) : ((persistResult download op).countP isSubmit) = 0 := by
  rw [List.countP_eq_zero]
  intro e he
  rcases persistResult_events_shape download op e he with ⟨m, rfl⟩ | ⟨h, rfl⟩ | ⟨b, rfl⟩ <;>
    simp [isSubmit]

/- ## Filesystem replay helpers -/

theorem applyEvents_frame (evs : List Event)
    (h : ∀ p b, Event.fsWrite p b ∈ evs → p = output_path) :
    ∀ fs q, q ≠ output_path → applyEvents fs evs q = fs q := by
  induction evs with
  | nil => intro fs q _; rfl
  | cons e es ih =>
    intro fs q hq
    have hes : ∀ p b, Event.fsWrite p b ∈ es → p = output_path :=
      fun p b hm => h p b (List.mem_cons_of_mem _ hm)
    have step : applyEvents fs (e :: es) = applyEvents (applyEvent fs e) es := rfl
    rw [step, ih hes _ q hq]
    cases e <;> try rfl
    case fsWrite p b =>
      have hp := h p b (List.mem_cons_self _ _)
      subst hp
      simp [applyEvent, hq]

/- ## The run, split by branch -/

/-- Everything the run emits up to and including the submission call
(lines 11-84), once at least one asset was found. -/
def createPre (env : Env) : List Event :=
  Event.log "🎬 Starting GameBuddies Ad Creation with Veo..." ::
    (verifyFiles env.pathExists avatar_files).2 ++
    [Event.log ("✅ Found " ++
      toString (verifyFiles env.pathExists avatar_files).1.length ++
      " avatars for reference.")] ++
    (loadImages env.readFile (verifyFiles env.pathExists avatar_files).1).2 ++
    [Event.log "\n🚀 Sending request to Veo 3.1...",
     Event.apiSubmit "veo-3.1-generate-preview" adPrompt
       ((loadImages env.readFile (verifyFiles env.pathExists avatar_files).1).1.map
         fun r => (r.image.image_bytes, r.image.mime_type, r.reference_type))]

theorem create_noAssets (env : Env) (fuel : Nat)
    (h : (verifyFiles env.pathExists avatar_files).1 = []) :
    create_gamebuddies_ad env fuel =
      (Event.log "🎬 Starting GameBuddies Ad Creation with Veo..." ::
        (verifyFiles env.pathExists avatar_files).2 ++
        [Event.log "❌ No avatars found to generate video."], true) := by
  simp [create_gamebuddies_ad, h]

theorem isEmpty_false_of_ne_nil {l : List String} (h : l ≠ []) :
    l.isEmpty = false := by
  cases l with
  | nil => exact absurd rfl h
  | cons a t => rfl

theorem create_submitError (env : Env) (fuel : Nat) (e : String)
    (hne : (verifyFiles env.pathExists avatar_files).1 ≠ [])
    (hsub : env.submit "veo-3.1-generate-preview" adPrompt
        (loadImages env.readFile (verifyFiles env.pathExists avatar_files).1).1 =
      Except.error e) :
    create_gamebuddies_ad env fuel =
      (createPre env ++ [Event.log ("❌ API Request failed: " ++ e)], true) := by
  simp [create_gamebuddies_ad, createPre, isEmpty_false_of_ne_nil hne, hsub]

theorem create_diverge (env : Env) (fuel : Nat) (op : Operation)
    (hne : (verifyFiles env.pathExists avatar_files).1 ≠ [])
    (hsub : env.submit "veo-3.1-generate-preview" adPrompt
        (loadImages env.readFile (verifyFiles env.pathExists avatar_files).1).1 =
      Except.ok op)
    (hpl : (pollLoop env.refetch op 0 fuel).1 = none) :
    create_gamebuddies_ad env fuel =
      (createPre env ++ Event.log "⏳ Waiting for video generation..." ::
        (pollLoop env.refetch op 0 fuel).2, false) := by
  simp [create_gamebuddies_ad, createPre, isEmpty_false_of_ne_nil hne, hsub, hpl]

theorem create_complete (env : Env) (fuel : Nat) (op opF : Operation)
    (hne : (verifyFiles env.pathExists avatar_files).1 ≠ [])
    (hsub : env.submit "veo-3.1-generate-preview" adPrompt
        (loadImages env.readFile (verifyFiles env.pathExists avatar_files).1).1 =
      Except.ok op)
    (hpl : (pollLoop env.refetch op 0 fuel).1 = some opF) :
    create_gamebuddies_ad env fuel =
      (createPre env ++ Event.log "⏳ Waiting for video generation..." ::
        (pollLoop env.refetch op 0 fuel).2 ++
        Event.log "\n✨ Generation complete!" :: persistResult env.download opF,
       true) := by
  simp [create_gamebuddies_ad, createPre, isEmpty_false_of_ne_nil hne, hsub, hpl]

theorem createPre_events_shape (env : Env) :
    ∀ e ∈ createPre env,
      (∃ m, e = Event.log m) ∨ (∃ p, e = Event.fsRead p) ∨ isSubmit e = true := by
  intro e he
  unfold createPre at he
  rcases List.mem_append.mp he with h | h
  · rcases List.mem_append.mp h with h | h
    · rcases List.mem_append.mp h with h | h
      · rcases List.mem_cons.mp h with rfl | h
        · exact Or.inl ⟨_, rfl⟩
        · exact Or.inl (verifyFiles_events_log _ _ e h)
      · rcases List.mem_cons.mp h with rfl | h
        · exact Or.inl ⟨_, rfl⟩
        · cases h
    · rcases loadImages_events_shape _ _ e h with hm | hm
      · exact Or.inl hm
      · exact Or.inr (Or.inl hm)
  · rcases List.mem_cons.mp h with rfl | h
    · exact Or.inl ⟨_, rfl⟩
    · rcases List.mem_cons.mp h with rfl | h
      · exact Or.inr (Or.inr rfl)
      · cases h

theorem createPre_countP_isSubmit (env : Env) :
    (createPre env).countP isSubmit = 1 := by
  simp [createPre, List.countP_cons, List.countP_append,
    countP_verifyFiles_isSubmit, countP_loadImages_isSubmit, isSubmit]

theorem createPre_countP_isApiCall (env : Env) :
    (createPre env).countP isApiCall = 1 := by
  simp [createPre, List.countP_cons, List.countP_append,
    countP_verifyFiles_isApiCall, countP_loadImages_isApiCall, isApiCall]

theorem create_countP_isSubmit (env : Env) (fuel : Nat) :
    ((create_gamebuddies_ad env fuel).1.countP isSubmit) ≤ 1 := by
  by_cases hv : (verifyFiles env.pathExists avatar_files).1 = []
  · rw [create_noAssets env fuel hv]
    simp [List.countP_cons, List.countP_append, countP_verifyFiles_isSubmit, isSubmit]
  · rcases hsub : env.submit "veo-3.1-generate-preview" adPrompt
        (loadImages env.readFile (verifyFiles env.pathExists avatar_files).1).1
      with e | op
    · rw [create_submitError env fuel e hv hsub]
      simp [List.countP_append, List.countP_cons, createPre_countP_isSubmit, isSubmit]
    · rcases hpl : (pollLoop env.refetch op 0 fuel).1 with _ | opF
      · rw [create_diverge env fuel op hv hsub hpl]
        simp [List.countP_append, List.countP_cons, createPre_countP_isSubmit,
          countP_pollLoop_isSubmit, isSubmit]
      · rw [create_complete env fuel op opF hv hsub hpl]
        simp [List.countP_append, List.countP_cons, createPre_countP_isSubmit,
          countP_pollLoop_isSubmit, countP_persistResult_isSubmit, isSubmit]

theorem create_writes_only_output (env : Env) (fuel : Nat) :
    ∀ p b, Event.fsWrite p b ∈ (create_gamebuddies_ad env fuel).1 → p = output_path := by
  intro p b hmem
  by_cases hv : (verifyFiles env.pathExists avatar_files).1 = []
  · rw [create_noAssets env fuel hv] at hmem
    rcases List.mem_append.mp hmem with h | h
    · rcases List.mem_cons.mp h with h | h
      · cases h
      · obtain ⟨m, hm⟩ := verifyFiles_events_log _ _ _ h
        cases hm
    · rcases List.mem_cons.mp h with h | h
      · cases h
      · cases h
  · rcases hsub : env.submit "veo-3.1-generate-preview" adPrompt
        (loadImages env.readFile (verifyFiles env.pathExists avatar_files).1).1
      with e | op
    · rw [create_submitError env fuel e hv hsub] at hmem
      rcases List.mem_append.mp hmem with h | h
      · rcases createPre_events_shape env _ h with ⟨m, hm⟩ | ⟨q, hm⟩ | hm
        · cases hm
        · cases hm
        · simp [isSubmit] at hm
      · rcases List.mem_cons.mp h with h | h
        · cases h
        · cases h
    · rcases hpl : (pollLoop env.refetch op 0 fuel).1 with _ | opF
      · rw [create_diverge env fuel op hv hsub hpl] at hmem
        rcases List.mem_append.mp hmem with h | h
        · rcases createPre_events_shape env _ h with ⟨m, hm⟩ | ⟨q, hm⟩ | hm
          · cases hm
          · cases hm
          · simp [isSubmit] at hm
        · rcases List.mem_cons.mp h with h | h
          · cases h
          · rcases pollLoop_events_shape env.refetch fuel op 0 _ h with hm | hm | hm <;>
              cases hm
      · rw [create_complete env fuel op opF hv hsub hpl] at hmem
        rcases List.mem_append.mp hmem with h | h
        · rcases List.mem_append.mp h with h | h
          · rcases createPre_events_shape env _ h with ⟨m, hm⟩ | ⟨q, hm⟩ | hm
            · cases hm
            · cases hm
            · simp [isSubmit] at hm
          · rcases List.mem_cons.mp h with h | h
            · cases h
            · rcases pollLoop_events_shape env.refetch fuel op 0 _ h with hm | hm | hm <;>
                cases hm
        · rcases List.mem_cons.mp h with h | h
          · cases h
          · rcases persistResult_events_shape env.download opF _ h
              with ⟨m, hm⟩ | ⟨q, hm⟩ | ⟨b2, hm⟩
            · cases hm
            · cases hm
            · injection hm with h1 h2

/- ## Concrete fixtures used by witnesses -/

/-- Environment where nothing exists and every oracle fails. -/
def envNone : Env :=
  { pathExists := fun _ => false,
    readFile := fun _ => Except.error "io fail",
    submit := fun _ _ _ => Except.error "api down",
    refetch := fun _ => { done := false, result := none, error := none },
    download := fun _ => Except.error "dl fail" }

/-- Environment where all assets exist but the submission call raises. -/
def envSubErr : Env :=
  { pathExists := fun _ => true,
    readFile := fun _ => Except.ok [0],
    submit := fun _ _ _ => Except.error "api down",
    refetch := fun _ => { done := false, result := none, error := none },
    download := fun _ => Except.error "dl fail" }

/-- Environment where all assets exist but every file read raises. -/
def envReadErr : Env :=
  { pathExists := fun _ => true,
    readFile := fun _ => Except.error "io fail",
    submit := fun _ _ _ => Except.error "api down",
    refetch := fun _ => { done := false, result := none, error := none },
    download := fun _ => Except.error "dl fail" }

/-- Poll oracle whose job completes at the second re-fetch. -/
def refetchAt1 : Nat → Operation :=
  fun n =>
    if n = 1 then { done := true, result := none, error := none }
    else { done := false, result := none, error := none }

/-- A pending operation. -/
def opPending : Operation := { done := false, result := none, error := none }

/-- A concrete generated video handle. -/
def vidA : GeneratedVideo := { video := "files/video-1" }

/-- A completed operation carrying one generated video. -/
def opDoneA : Operation :=
  { done := true, result := some { generated_videos := [vidA] }, error := none }

/-- A completed operation with an empty video list and an error. -/
def opNoVid : Operation :=
  { done := true, result := some { generated_videos := [] },
    error := some "quota exceeded" }

/-- Download oracle returning raw bytes. -/
def dlBytes : String → Except String DownloadValue :=
  fun _ => Except.ok (DownloadValue.bytes [1, 2, 3])

/-- Download oracle returning a non-bytes value. -/
def dlOther : String → Except String DownloadValue :=
  fun _ => Except.ok (DownloadValue.other "Video")

/-- File reader with one readable and one unreadable file. -/
def rdTwo : String → Except String (List Nat) :=
  fun p => if p = "a" then Except.ok [7] else Except.error "boom"

/-- Existence oracle recognising only the archer avatar. -/
def exOnlyArcher : String → Bool := fun p => p = premium_dir ++ "/archer.png"

/- ## Claims -/

/-- Claim C1: the polling loop sleeps a fixed 10-unit interval, then
re-fetches, then prints a progress dot, repeating exactly while the
completion flag of the currently held operation is false; it stops on the
first observation of the flag being true regardless of whether a result or
an error is present (the hypotheses constrain `done` only), and it has no
timeout, maximum retry count, or cancellation path: if the flag never
becomes true, no amount of fuel makes it terminate. -/
theorem claim_C1_poll_loop :
    (∀ refetch : Nat → Operation, ∀ op : Operation, ∀ i fuel : Nat,
        op.done = false → (∀ n, (refetch n).done = false) →
        (pollLoop refetch op i fuel).1 = none) ∧
    (∀ refetch : Nat → Operation, ∀ op : Operation, ∀ k fuel : Nat,
        op.done = false → (refetch k).done = true →
        (∀ j, j < k → (refetch j).done = false) → k < fuel →
        pollLoop refetch op 0 fuel = (some (refetch k), pollEvents (k + 1))) ∧
    (∀ refetch : Nat → Operation, ∀ op : Operation, ∀ i fuel : Nat,
        op.done = true → pollLoop refetch op i fuel = (some op, [])) := by
  refine ⟨?_, ?_, ?_⟩
  · intro refetch op i fuel h hall
    exact pollLoop_never refetch hall fuel op i h
  · intro refetch op k fuel hop hk hlt hf
    have := pollLoop_first_done refetch k op 0 fuel hop (by simpa using hk)
      (by intro j hj; simpa using hlt j hj) hf
    simpa using this
  · intro refetch op i fuel h
    exact pollLoop_of_done refetch op i fuel h

/-- Witness for C1: a job completing on the second re-fetch is polled for
exactly two iterations. -/
theorem claim_C1_poll_loop_witness :
    pollLoop refetchAt1 opPending 0 5 = (some (refetchAt1 1), pollEvents 2) :=
  claim_C1_poll_loop.2.1 refetchAt1 opPending 1 5 rfl (by decide) (by decide)
    (by decide)

/-- Claim C2: for a completed operation whose result carries a first
generated video and whose download yields raw bytes, the Result Persister
emits exactly one filesystem write, whose bytes are exactly the downloaded
bytes and whose path is the fixed output path, and replaying the emitted
events over any prior filesystem state leaves those bytes at that path
(overwriting whatever was there). -/
theorem claim_C2_persist_bytes
    (download : String → Except String DownloadValue) (op : Operation)
    (res : OperationResult) (v : GeneratedVideo) (vs : List GeneratedVideo)
    (b : List Nat)
    (hres : op.result = some res) (hvs : res.generated_videos = v :: vs)
    (hdl : download v.video = Except.ok (DownloadValue.bytes b)) :
    Event.fsWrite output_path b ∈ persistResult download op ∧
    (persistResult download op).countP isWrite = 1 ∧
    (∀ p c, Event.fsWrite p c ∈ persistResult download op →
        p = output_path ∧ c = b) ∧
    (∀ fs, applyEvents fs (persistResult download op) output_path = some b) := by
  rw [persistResult_bytes download op res v vs b hres hvs hdl]
  refine ⟨?_, ?_, ?_, ?_⟩
  · simp [debugEvents]
  · simp [debugEvents, List.countP_cons, List.countP_append, isWrite]
  · intro p c hm
    simp [debugEvents, Event.fsWrite.injEq] at hm
    exact hm
  · intro fs
    simp [debugEvents, applyEvents, applyEvent, List.foldl_cons, List.foldl_append]

/-- Witness for C2 at a concrete completed operation and download. -/
theorem claim_C2_persist_bytes_witness :
    Event.fsWrite output_path [1, 2, 3] ∈ persistResult dlBytes opDoneA ∧
    (persistResult dlBytes opDoneA).countP isWrite = 1 ∧
    (∀ p c, Event.fsWrite p c ∈ persistResult dlBytes opDoneA →
        p = output_path ∧ c = [1, 2, 3]) ∧
    (∀ fs, applyEvents fs (persistResult dlBytes opDoneA) output_path =
        some [1, 2, 3]) :=
  claim_C2_persist_bytes dlBytes opDoneA { generated_videos := [vidA] } vidA []
    [1, 2, 3] rfl rfl rfl

/-- Claim C3: when none of the hardcoded candidate asset paths exists, the
run makes zero API calls of any kind, logs one warning per path plus an
abort message, and returns early. -/
theorem claim_C3_no_assets (env : Env) (fuel : Nat)
    (h : ∀ p ∈ avatar_files, env.pathExists p = false) :
    create_gamebuddies_ad env fuel =
      (Event.log "🎬 Starting GameBuddies Ad Creation with Veo..." ::
        (avatar_files.map fun p =>
          Event.log ("⚠️ Warning: Avatar not found at " ++ p)) ++
        [Event.log "❌ No avatars found to generate video."], true) ∧
    ((create_gamebuddies_ad env fuel).1.countP isApiCall = 0) := by
  have hfst : (verifyFiles env.pathExists avatar_files).1 = [] := by
    rw [verifyFiles_fst]
    exact List.filter_eq_nil_iff.mpr (by intro a ha; simp [h a ha])
  have hsnd : (verifyFiles env.pathExists avatar_files).2 =
      avatar_files.map
        (fun p => Event.log ("⚠️ Warning: Avatar not found at " ++ p)) := by
    rw [verifyFiles_snd]
    congr 1
    exact List.filter_eq_self.mpr (by intro a ha; simp [h a ha])
  constructor
  · rw [create_noAssets env fuel hfst, hsnd]
  · rw [create_noAssets env fuel hfst]
    simp [List.countP_cons, List.countP_append, countP_verifyFiles_isApiCall,
      isApiCall]

/-- Witness for C3: the all-missing environment. -/
theorem claim_C3_no_assets_witness :
    create_gamebuddies_ad envNone 0 =
      (Event.log "🎬 Starting GameBuddies Ad Creation with Veo..." ::
        (avatar_files.map fun p =>
          Event.log ("⚠️ Warning: Avatar not found at " ++ p)) ++
        [Event.log "❌ No avatars found to generate video."], true) ∧
    ((create_gamebuddies_ad envNone 0).1.countP isApiCall = 0) :=
  claim_C3_no_assets envNone 0 (fun _ _ => rfl)

/-- Claim C4: the Image Loader produces exactly one ReferenceImage per file
whose bytes read successfully, in input order (the successful prefix
structure of `filterMap`), each tagged as an asset reference with the PNG
MIME type; a read failure is logged and skipped while the remaining files
are still processed. -/
theorem claim_C4_image_loader (rd : String → Except String (List Nat))
    (ps : List String) :
    (loadImages rd ps).1 = ps.filterMap (fun p =>
        match rd p with
        | .ok b => some (mkReferenceImage b)
        | .error _ => none) ∧
    (∀ ri ∈ (loadImages rd ps).1,
        ri.reference_type = "asset" ∧ ri.image.mime_type = "image/png") ∧
    (∀ p ∈ ps, ∀ e, rd p = .error e →
        Event.log ("   ❌ Failed to load image: " ++ e) ∈ (loadImages rd ps).2) := by
  refine ⟨loadImages_fst rd ps, ?_, ?_⟩
  · intro ri hri
    rw [loadImages_fst] at hri
    obtain ⟨p, hp, hm⟩ := List.mem_filterMap.mp hri
    rcases h : rd p with e | b
    · rw [h] at hm; cases hm
    · rw [h] at hm
      obtain rfl := Option.some.inj hm
      exact ⟨rfl, rfl⟩
  · intro p hp e he
    exact loadImages_err_log rd ps p e hp he

/-- Witness for C4: one readable and one unreadable file. -/
theorem claim_C4_image_loader_witness :
    (loadImages rdTwo ["a", "b"]).1 = [mkReferenceImage [7]] ∧
    Event.log ("   ❌ Failed to load image: " ++ "boom") ∈
      (loadImages rdTwo ["a", "b"]).2 := by
  constructor
  · exact ((claim_C4_image_loader rdTwo ["a", "b"]).1).trans (by decide)
  · exact (claim_C4_image_loader rdTwo ["a", "b"]).2.2 "b" (by simp) "boom" rfl

/-- Claim C5: when the first generated video downloads to a value that is
not raw bytes, the Result Persister emits no filesystem write at all, logs
the type of the value as its final action, and replaying its events changes
no path of the filesystem. -/
theorem claim_C5_persist_other
    (download : String → Except String DownloadValue) (op : Operation)
    (res : OperationResult) (v : GeneratedVideo) (vs : List GeneratedVideo)
    (t : String)
    (hres : op.result = some res) (hvs : res.generated_videos = v :: vs)
    (hdl : download v.video = Except.ok (DownloadValue.other t)) :
    persistResult download op =
      Event.log ("💾 Saving video to: " ++ output_path) ::
        (debugEvents v ++
          (Event.apiDownload v.video ::
            [Event.log ("   Download returned " ++ t ++ ". Trying to interpret...")])) ∧
    (∀ p c, Event.fsWrite p c ∉ persistResult download op) ∧
    (∀ fs q, applyEvents fs (persistResult download op) q = fs q) := by
  have ht := persistResult_other download op res v vs t hres hvs hdl
  refine ⟨ht, ?_, ?_⟩
  · intro p c hm
    rw [ht] at hm
    simp [debugEvents] at hm
  · intro fs q
    rw [ht]
    simp [debugEvents, applyEvents, applyEvent, List.foldl_cons, List.foldl_append]

/-- Witness for C5 at a concrete non-bytes download. -/
theorem claim_C5_persist_other_witness :
    persistResult dlOther opDoneA =
      Event.log ("💾 Saving video to: " ++ output_path) ::
        (debugEvents vidA ++
          (Event.apiDownload vidA.video ::
            [Event.log ("   Download returned " ++ "Video" ++
              ". Trying to interpret...")])) ∧
    (∀ p c, Event.fsWrite p c ∉ persistResult dlOther opDoneA) ∧
    (∀ fs q, applyEvents fs (persistResult dlOther opDoneA) q = fs q) :=
  claim_C5_persist_other dlOther opDoneA { generated_videos := [vidA] } vidA []
    "Video" rfl rfl rfl

/-- Claim C6: when the completed operation's result is absent or its
generated-video list is empty, the Result Persister writes nothing, logs
the absence, and also reports any operation-level error that is present. -/
theorem claim_C6_persist_novideo
    (download : String → Except String DownloadValue) (op : Operation)
    (h : op.result = none ∨
      ∃ res, op.result = some res ∧ res.generated_videos = []) :
    persistResult download op =
      Event.log "❌ No video returned in result." ::
        (match op.error with
         | some e => [Event.log ("   Error: " ++ e)]
         | none => []) ∧
    (∀ p c, Event.fsWrite p c ∉ persistResult download op) ∧
    (∀ e, op.error = some e →
        Event.log ("   Error: " ++ e) ∈ persistResult download op) := by
  have ht := persistResult_noVideo download op h
  refine ⟨ht.trans rfl, ?_, ?_⟩
  · intro p c hm
    rw [ht] at hm
    obtain ⟨m, hm2⟩ := noVideoEvents_shape op _ hm
    cases hm2
  · intro e he
    rw [ht]
    simp [noVideoEvents, he]

/-- Witness for C6: an empty video list with an operation error. -/
theorem claim_C6_persist_novideo_witness :
    persistResult dlBytes opNoVid =
      Event.log "❌ No video returned in result." ::
        (match opNoVid.error with
         | some e => [Event.log ("   Error: " ++ e)]
         | none => []) ∧
    (∀ p c, Event.fsWrite p c ∉ persistResult dlBytes opNoVid) ∧
    (∀ e, opNoVid.error = some e →
        Event.log ("   Error: " ++ e) ∈ persistResult dlBytes opNoVid) :=
  claim_C6_persist_novideo dlBytes opNoVid
    (Or.inr ⟨{ generated_videos := [] }, rfl, rfl⟩)

/-- Claim C7: API/request failures are caught and end the run instead of
propagating: a submission error makes the run return with the exception
logged after the submission event and with exactly one API call in the
whole trace; a download error makes the Result Persister end with the
exception logged and no file written; and no run ever contains more than
one submission (no retry of the overall job). -/
theorem claim_C7_errors_caught :
    (∀ env : Env, ∀ fuel : Nat, ∀ e : String,
        (verifyFiles env.pathExists avatar_files).1 ≠ [] →
        env.submit "veo-3.1-generate-preview" adPrompt
            (loadImages env.readFile (verifyFiles env.pathExists avatar_files).1).1 =
          Except.error e →
        create_gamebuddies_ad env fuel =
          (createPre env ++ [Event.log ("❌ API Request failed: " ++ e)], true) ∧
        (create_gamebuddies_ad env fuel).1.countP isApiCall = 1) ∧
    (∀ download : String → Except String DownloadValue, ∀ op : Operation,
        ∀ res : OperationResult, ∀ v : GeneratedVideo,
        ∀ vs : List GeneratedVideo, ∀ e : String,
        op.result = some res → res.generated_videos = v :: vs →
        download v.video = Except.error e →
        persistResult download op =
          Event.log ("💾 Saving video to: " ++ output_path) ::
            (debugEvents v ++
              (Event.apiDownload v.video ::
                [Event.log ("❌ Failed to save video: " ++ e)])) ∧
        (∀ p c, Event.fsWrite p c ∉ persistResult download op)) ∧
    (∀ env : Env, ∀ fuel : Nat,
        (create_gamebuddies_ad env fuel).1.countP isSubmit ≤ 1) := by
  refine ⟨?_, ?_, ?_⟩
  · intro env fuel e hne hsub
    have ht := create_submitError env fuel e hne hsub
    refine ⟨ht, ?_⟩
    rw [ht]
    simp [List.countP_append, List.countP_cons, createPre_countP_isApiCall,
      isApiCall]
  · intro download op res v vs e hres hvs hdl
    have ht := persistResult_dlerr download op res v vs e hres hvs hdl
    refine ⟨ht, ?_⟩
    intro p c hm
    rw [ht] at hm
    simp [debugEvents] at hm
  · intro env fuel
    exact create_countP_isSubmit env fuel

/-- Witness for C7: a concrete submission failure. -/
theorem claim_C7_errors_caught_witness :
    create_gamebuddies_ad envSubErr 0 =
      (createPre envSubErr ++
        [Event.log ("❌ API Request failed: " ++ "api down")], true) ∧
    (create_gamebuddies_ad envSubErr 0).1.countP isApiCall = 1 :=
  claim_C7_errors_caught.1 envSubErr 0 "api down" (by decide) rfl

/-- Claim C8: for every filesystem state, the Asset Locator returns exactly
the existing subset of the hardcoded candidate paths, in input order, and
logs one warning per missing path, in input order. -/
theorem claim_C8_asset_locator (ex : String → Bool) :
    (verifyFiles ex avatar_files).1 = avatar_files.filter (fun p => ex p) ∧
    (verifyFiles ex avatar_files).2 =
      (avatar_files.filter (fun p => !ex p)).map
        (fun p => Event.log ("⚠️ Warning: Avatar not found at " ++ p)) :=
  ⟨verifyFiles_fst ex avatar_files, verifyFiles_snd ex avatar_files⟩

/-- Witness for C8: only the archer avatar exists; it is kept and the two
others produce warnings, in order. -/
theorem claim_C8_asset_locator_witness :
    (verifyFiles exOnlyArcher avatar_files).1 =
      [premium_dir ++ "/archer.png"] ∧
    (verifyFiles exOnlyArcher avatar_files).2 =
      [Event.log ("⚠️ Warning: Avatar not found at " ++
        (premium_dir ++ "/knight.png")),
       Event.log ("⚠️ Warning: Avatar not found at " ++
        (premium_dir ++ "/mage.png"))] :=
  ⟨((claim_C8_asset_locator exOnlyArcher).1).trans (by decide),
   ((claim_C8_asset_locator exOnlyArcher).2).trans (by decide)⟩

/-- Claim C9: if at least one candidate asset path exists but every file
read raises, the generation request is still submitted, with an empty
reference-image list: only existence, not successful loading, gates the
submission. -/
theorem claim_C9_submit_empty_refs (env : Env) (fuel : Nat)
    (hex : ∃ p ∈ avatar_files, env.pathExists p = true)
    (herr : ∀ p, ∃ e, env.readFile p = Except.error e) :
    Event.apiSubmit "veo-3.1-generate-preview" adPrompt [] ∈
      (create_gamebuddies_ad env fuel).1 := by
  obtain ⟨p0, hp0, hpe⟩ := hex
  have hne : (verifyFiles env.pathExists avatar_files).1 ≠ [] := by
    rw [verifyFiles_fst]
    intro hnil
    have := List.filter_eq_nil_iff.mp hnil p0 hp0
    simp [hpe] at this
  have hri : (loadImages env.readFile
      (verifyFiles env.pathExists avatar_files).1).1 = [] := by
    rw [loadImages_fst]
    apply List.filterMap_eq_nil_iff.mpr
    intro q _
    obtain ⟨e, he⟩ := herr q
    simp [he]
  have hmem : Event.apiSubmit "veo-3.1-generate-preview" adPrompt [] ∈
      createPre env := by
    unfold createPre
    rw [hri]
    simp
  rcases hsub : env.submit "veo-3.1-generate-preview" adPrompt
      (loadImages env.readFile (verifyFiles env.pathExists avatar_files).1).1
    with e | op
  · rw [create_submitError env fuel e hne hsub]
    exact List.mem_append.mpr (Or.inl hmem)
  · rcases hpl : (pollLoop env.refetch op 0 fuel).1 with _ | opF
    · rw [create_diverge env fuel op hne hsub hpl]
      exact List.mem_append.mpr (Or.inl hmem)
    · rw [create_complete env fuel op opF hne hsub hpl]
      exact List.mem_append.mpr (Or.inl (List.mem_append.mpr (Or.inl hmem)))

/-- Witness for C9: all assets exist, every read fails, and the submission
event with an empty reference list is in the trace. -/
theorem claim_C9_submit_empty_refs_witness :
    Event.apiSubmit "veo-3.1-generate-preview" adPrompt [] ∈
      (create_gamebuddies_ad envReadErr 0).1 :=
  claim_C9_submit_empty_refs envReadErr 0
    ⟨premium_dir ++ "/archer.png", by simp [avatar_files], rfl⟩
    (fun _ => ⟨"io fail", rfl⟩)

/-- Claim C10: in every run, whatever the environment does, the only path
ever written is the fixed output path, and replaying the run's events over
any initial filesystem leaves every other path unchanged. -/
theorem claim_C10_frame_effect (env : Env) (fuel : Nat) :
    (∀ p b, Event.fsWrite p b ∈ (create_gamebuddies_ad env fuel).1 →
        p = output_path) ∧
    (∀ fs q, q ≠ output_path →
        applyEvents fs (create_gamebuddies_ad env fuel).1 q = fs q) :=
  ⟨create_writes_only_output env fuel,
   applyEvents_frame _ (create_writes_only_output env fuel)⟩

/-- Witness for C10: a run leaves an unrelated path untouched. -/
theorem claim_C10_frame_effect_witness :
    applyEvents (fun _ => none) (create_gamebuddies_ad envSubErr 1).1
      "/etc/hosts" = none :=
  (claim_C10_frame_effect envSubErr 1).2 (fun _ => none) "/etc/hosts" (by decide)
